import Mathlib

/-!
Verification of the batch-normalization layer
(src/include/dll/neural/dyn_batch_normalization_layer_4d.inl) against its
natural-language specification.

The layer works on 4-dimensional tensors (batch x channel x width x height)
of a floating-point weight type; the embedding uses real numbers and models
each C++ member function as a pure function from the layer state (and the
caller-provided buffers) to the new state and written buffers.  Buffers are
modelled as a dimension quadruple together with a total data function;
entries outside the dimensions are junk, as in the raw C++ buffers.

The machine-integer arithmetic of the source is kept: the sizes B, W, H and
the observation count S = B*W*H are naturals, and the expression
S / (S - 1) appearing in the running-variance update is natural (truncating)
division, exactly as size_t division behaves in the C++ source.

The training forward pass is long, so it is split into one definition per
statement of the source function (the mini-batch mean, the mini-batch
variance accumulation, the inverse standard deviation, the cached whitened
activations, the written output, and the two EMA updates), combined by
train_batch_activate_hidden in source order.
-/

noncomputable section

namespace DLL

/-- A 4-dimensional tensor (etl::dyn_matrix<weight, 4>): batch x channel x
width x height dimensions plus a total data function.  Entries outside the
dimensions are junk, mirroring the raw backing storage of the C++ buffers. -/
@[ext]
structure Tensor4 where
  dimB : ℕ
  dimK : ℕ
  dimW : ℕ
  dimH : ℕ
  data : ℕ → ℕ → ℕ → ℕ → ℝ

/-- The all-zero tensor with empty dimensions, standing for a
not-yet-allocated dyn_matrix. -/
def Tensor4.null : Tensor4 := ⟨0, 0, 0, 0, fun _ _ _ _ => 0⟩

/-- Modelled from the spec: the etl reduction bias_batch_mean_4d (external
tensor library, not under src/) computes, for each channel k, the mean of
the tensor over the batch and the two spatial axes. -/
def bias_batch_mean_4d (t : Tensor4) (k : ℕ) : ℝ :=
  (∑ b ∈ Finset.range t.dimB, ∑ i ∈ Finset.range t.dimW, ∑ j ∈ Finset.range t.dimH,
    t.data b k i j) / (t.dimB * t.dimW * t.dimH : ℕ)

/-- Modelled from the spec: the etl reduction bias_batch_sum_4d (external
tensor library, not under src/) computes, for each channel k, the sum of
the tensor over the batch and the two spatial axes. -/
def bias_batch_sum_4d (t : Tensor4) (k : ℕ) : ℝ :=
  ∑ b ∈ Finset.range t.dimB, ∑ i ∈ Finset.range t.dimW, ∑ j ∈ Finset.range t.dimH,
    t.data b k i j

/-- The state of a dyn_batch_normalization_4d_layer: the learnable
parameters, running statistics, cached batch statistics, the cached
whitened activations, the EMA momentum, and the dimensions set by
init_layer.  Per-channel vectors are lists of reals. -/
structure Layer where
  Kernels : ℕ
  W : ℕ
  H : ℕ
  gamma : List ℝ
  beta : List ℝ
  mean : List ℝ
  var : List ℝ
  last_mean : List ℝ
  last_var : List ℝ
  inv_var : List ℝ
  input_pre : Option Tensor4
  momentum : ℝ

/-- The epsilon constant of the layer: static constexpr weight e = 1e-8. -/
def e : ℝ := 1e-8

/-- A default-constructed layer: Kernels = W = H = 0, no vectors allocated,
input_pre not allocated, momentum = 0.9. -/
def Layer.new : Layer :=
  { Kernels := 0, W := 0, H := 0
    gamma := [], beta := [], mean := [], var := []
    last_mean := [], last_var := [], inv_var := []
    input_pre := none, momentum := 0.9 }

/-- Modelled from the spec: allocation of a fresh etl::dyn_vector of a
given length (external tensor library, not under src/).  The spec states
that init_layer leaves mean, var and the other statistics vectors "at
default (zero)", so a freshly allocated vector is zero-filled. -/
def dyn_vector (n : ℕ) : List ℝ := List.replicate n 0

/-- init_layer(Kernels, W, H): stores the dimensions, allocates the seven
per-channel vectors of length Kernels, and then assigns the scalars
gamma = 1.0 and beta = 0.0 elementwise, as the source does. -/
def init_layer (l : Layer) (Kernels W H : ℕ) : Layer :=
  { l with
    Kernels := Kernels, W := W, H := H
    gamma := (dyn_vector Kernels).map (fun _ => 1.0)
    beta := (dyn_vector Kernels).map (fun _ => 0.0)
    mean := dyn_vector Kernels
    var := dyn_vector Kernels
    last_mean := dyn_vector Kernels
    last_var := dyn_vector Kernels
    inv_var := dyn_vector Kernels }

/-- parameters(): 4 * Kernels. -/
def parameters (l : Layer) : ℕ := 4 * l.Kernels

/-- input_size(): Kernels * W * H. -/
def input_size (l : Layer) : ℕ := l.Kernels * l.W * l.H

/-- output_size(): Kernels * W * H. -/
def output_size (l : Layer) : ℕ := l.Kernels * l.W * l.H

/-- Modelled from the spec: etl::dyn_matrix::inherit_if_null (external
tensor library, not under src/) gives input_pre its storage, with
"inherit semantics: allocate if absent/mismatched, else reuse" — a fresh
zero buffer of the argument's shape when none is present or the present
shape mismatches, the present buffer otherwise. -/
def inherit_if_null (cur : Option Tensor4) (inp : Tensor4) : Tensor4 :=
  match cur with
  | none => { dimB := inp.dimB, dimK := inp.dimK, dimW := inp.dimW, dimH := inp.dimH,
              data := fun _ _ _ _ => 0 }
  | some t =>
      if t.dimB = inp.dimB ∧ t.dimK = inp.dimK ∧ t.dimW = inp.dimW ∧ t.dimH = inp.dimH
      then t
      else { dimB := inp.dimB, dimK := inp.dimK, dimW := inp.dimW, dimH := inp.dimH,
             data := fun _ _ _ _ => 0 }

/-- The cached input_pre buffer of a layer (the null tensor when it has
never been allocated). -/
def cachedPre (l : Layer) : Tensor4 := l.input_pre.getD Tensor4.null

/-- Source line: last_mean = etl::bias_batch_mean_4d(input). -/
def train_last_mean (input : Tensor4) : List ℝ :=
  (List.range input.dimK).map (fun k => bias_batch_mean_4d input k)

/-- Source lines: last_var = 0; the double loop accumulating, for each
channel k < Kernels, the sum over b < B of the spatial sums of squared
deviations from last_mean(k); and last_var /= S with S = B * W * H. -/
def train_last_var (l : Layer) (input : Tensor4) : List ℝ :=
  (List.range l.Kernels).map (fun k =>
    (∑ b ∈ Finset.range input.dimB, ∑ i ∈ Finset.range input.dimW,
      ∑ j ∈ Finset.range input.dimH,
        (input.data b k i j - (train_last_mean input).getD k 0) *
        (input.data b k i j - (train_last_mean input).getD k 0))
      / ((input.dimB * l.W * l.H : ℕ) : ℝ))

/-- Source line: inv_var = 1.0 / etl::sqrt(last_var + e), elementwise. -/
def train_inv_var (l : Layer) (input : Tensor4) : List ℝ :=
  (train_last_var l input).map (fun v => 1 / Real.sqrt (v + e))

/-- Source lines: input_pre.inherit_if_null(input) and the loop writing,
for b < B and k < Kernels, the sub-matrix
input_pre(b)(k) = (input(b)(k) - last_mean(k)) * inv_var(k). -/
def train_input_pre (l : Layer) (input : Tensor4) : Tensor4 :=
  { inherit_if_null l.input_pre input with
    data := fun b k i j =>
      if b < input.dimB ∧ k < l.Kernels
      then (input.data b k i j - (train_last_mean input).getD k 0) *
           (train_inv_var l input).getD k 0
      else (inherit_if_null l.input_pre input).data b k i j }

/-- Source line (same loop): output(b)(k) = gamma(k) * input_pre(b)(k) + beta(k),
written into the caller's output buffer for b < B and k < Kernels. -/
def train_output (l : Layer) (output input : Tensor4) : Tensor4 :=
  { output with
    data := fun b k i j =>
      if b < input.dimB ∧ k < l.Kernels
      then l.gamma.getD k 0 * (train_input_pre l input).data b k i j + l.beta.getD k 0
      else output.data b k i j }

/-- Source line: mean = momentum * mean + (1.0 - momentum) * last_mean. -/
def train_mean (l : Layer) (input : Tensor4) : List ℝ :=
  (List.range l.Kernels).map (fun k =>
    l.momentum * l.mean.getD k 0 + (1 - l.momentum) * (train_last_mean input).getD k 0)

/-- Source line: var = momentum * var + (1.0 - momentum) * (S / (S - 1) * last_var),
with S = B * W * H of type size_t, so S / (S - 1) is truncating natural
division exactly as in the source. -/
def train_var (l : Layer) (input : Tensor4) : List ℝ :=
  (List.range l.Kernels).map (fun k =>
    l.momentum * l.var.getD k 0 +
      (1 - l.momentum) *
        ((((input.dimB * l.W * l.H) / (input.dimB * l.W * l.H - 1) : ℕ) : ℝ) *
          (train_last_var l input).getD k 0))

/-- train_batch_activate_hidden(output, input): the training forward pass,
assembled from the per-statement definitions above in source order.
Returns the new layer state and the written output buffer. -/
def train_batch_activate_hidden (l : Layer) (output input : Tensor4) :
    Layer × Tensor4 :=
  ({ l with
      last_mean := train_last_mean input
      last_var := train_last_var l input
      inv_var := train_inv_var l input
      input_pre := some (train_input_pre l input)
      mean := train_mean l input
      var := train_var l input },
   train_output l output input)

/-- Source line of the inference pass: the local temporary
inv_var = 1.0 / etl::sqrt(var + e), recomputed from the running variance. -/
def test_inv_var (l : Layer) : List ℝ :=
  l.var.map (fun v => 1 / Real.sqrt (v + e))

/-- test_batch_activate_hidden(output, input): the inference forward pass.
A const method: it recomputes the local inverse standard deviation from the
running variance and writes, for b < B and k < Kernels,
output(b)(k) = gamma(k) * ((input(b)(k) - mean(k)) * inv_var(k)) + beta(k).
The layer state is returned unchanged (the method is const in the source). -/
def test_batch_activate_hidden (l : Layer) (output input : Tensor4) :
    Layer × Tensor4 :=
  (l,
    { output with
      data := fun b k i j =>
        if b < input.dimB ∧ k < l.Kernels
        then l.gamma.getD k 0 *
              ((input.data b k i j - l.mean.getD k 0) * (test_inv_var l).getD k 0)
             + l.beta.getD k 0
        else output.data b k i j })

/-- batch_activate_hidden(output, input) simply calls
test_batch_activate_hidden. -/
def batch_activate_hidden (l : Layer) (output input : Tensor4) :
    Layer × Tensor4 :=
  test_batch_activate_hidden l output input

/-- The training context of the layer (sgd_context): per-batch buffers for
input, output and errors, and the per-channel gradient vectors. -/
structure Context where
  input : Tensor4
  output : Tensor4
  errors : Tensor4
  w_grad : List ℝ
  b_grad : List ℝ

/-- Source lines of backward_batch: dxhat is a temporary with the
dimensions of context.errors (force_temporary_dim_only) holding, for b < B
and k < Kernels, errors(b)(k) * gamma(k); its other entries are never
initialized by the source and are modelled as 0. -/
def backward_dxhat (l : Layer) (ctx : Context) : Tensor4 :=
  { ctx.errors with
    data := fun b k i j =>
      if b < ctx.input.dimB ∧ k < l.Kernels
      then ctx.errors.data b k i j * l.gamma.getD k 0
      else 0 }

/-- backward_batch(output, context): B = dim<0>(context.input), S = B*W*H;
dxhat_l = bias_batch_sum_4d(dxhat) and
dxhat_xhat_l = bias_batch_sum_4d(dxhat * input_pre); the output is, for
b < B and k < Kernels,
(1.0/S) * inv_var(k) * (S * dxhat(b)(k) - dxhat_l(k)
  - input_pre(b)(k) * dxhat_xhat_l(k)).  A const method: the layer state is
not modified. -/
def backward_batch (l : Layer) (output : Tensor4) (ctx : Context) : Tensor4 :=
  { output with
    data := fun b k i j =>
      if b < ctx.input.dimB ∧ k < l.Kernels
      then (1 / ((ctx.input.dimB * l.W * l.H : ℕ) : ℝ)) * l.inv_var.getD k 0 *
            (((ctx.input.dimB * l.W * l.H : ℕ) : ℝ) * (backward_dxhat l ctx).data b k i j
              - bias_batch_sum_4d (backward_dxhat l ctx) k
              - (cachedPre l).data b k i j *
                bias_batch_sum_4d
                  { backward_dxhat l ctx with
                    data := fun b' k' i' j' =>
                      (backward_dxhat l ctx).data b' k' i' j' * (cachedPre l).data b' k' i' j' } k)
      else output.data b k i j }

/-- compute_gradients(context): writes
w_grad = bias_batch_sum_4d(input_pre * errors) and
b_grad = bias_batch_sum_4d(errors) into the context.  A const method: the
layer is returned unchanged. -/
def compute_gradients (l : Layer) (ctx : Context) : Layer × Context :=
  (l,
    { ctx with
      w_grad := (List.range (cachedPre l).dimK).map (fun k =>
        bias_batch_sum_4d
          { cachedPre l with
            data := fun b k' i j => (cachedPre l).data b k' i j * ctx.errors.data b k' i j } k)
      b_grad := (List.range ctx.errors.dimK).map (fun k =>
        bias_batch_sum_4d ctx.errors k) })

/-! Concrete fixtures used by the concrete-scenario claim, by the
counterexample to the running-variance claim, and by the witnesses. -/

/-- A layer initialized with K = W = H = 1 (gamma = [1], beta = [0],
mean = var = [0], momentum = 0.9). -/
def L0 : Layer := init_layer Layer.new 1 1 1

/-- A zero 2x1x1x1 buffer. -/
def Tz : Tensor4 := ⟨2, 1, 1, 1, fun _ _ _ _ => 0⟩

/-- The input of the concrete scenario: batch [[2.0], [4.0]]. -/
def Tin : Tensor4 := ⟨2, 1, 1, 1, fun b _ _ _ => if b = 0 then 2 else 4⟩

/-- The layer state after one training forward pass of the concrete
scenario. -/
def L1 : Layer := (train_batch_activate_hidden L0 Tz Tin).1

/-- An upstream-gradient buffer for the backward/gradient witnesses. -/
def Terr : Tensor4 := ⟨2, 1, 1, 1, fun b _ _ _ => if b = 0 then 5 else 7⟩

/-- A training context holding the concrete scenario's input and errors. -/
def CtxA : Context := ⟨Tin, Tz, Terr, [], []⟩

/-- A zero 3x1x1x1 buffer. -/
def Tz3 : Tensor4 := ⟨3, 1, 1, 1, fun _ _ _ _ => 0⟩

/-- A batch of three observations (0, 0, 3) in one channel: S = 3, so the
source's truncating division S / (S - 1) = 1 differs from the real ratio
3 / 2. -/
def Tin3 : Tensor4 := ⟨3, 1, 1, 1, fun b _ _ _ => if b = 2 then 3 else 0⟩

/-! Helper lemmas shared by the claim theorems. -/

theorem getD_range_map (f : ℕ → ℝ) (n k : ℕ) (hk : k < n) :
    ((List.range n).map f).getD k 0 = f k := by
  rw [List.getD_eq_getElem?_getD, List.getElem?_map, List.getElem?_range hk]
  rfl

theorem getD_map_lt (f : ℝ → ℝ) (lst : List ℝ) (k : ℕ) (hk : k < lst.length) :
    (lst.map f).getD k 0 = f (lst.getD k 0) := by
  rw [List.getD_eq_getElem?_getD, List.getElem?_map, List.getElem?_eq_getElem hk,
      List.getD_eq_getElem?_getD, List.getElem?_eq_getElem hk]
  rfl

theorem inv_sqrt_one_add_eps_le_one : 1 / Real.sqrt (1 + 1e-8) ≤ 1 := by
  have h1 : (1:ℝ) ≤ Real.sqrt (1 + 1e-8) := by
    rw [show (1:ℝ) = Real.sqrt 1 by rw [Real.sqrt_one]]
    exact Real.sqrt_le_sqrt (by norm_num)
  rw [div_le_one (lt_of_lt_of_le one_pos h1)]
  exact h1

theorem one_sub_eps_le_inv_sqrt_one_add_eps :
    1 - (1e-8 : ℝ) ≤ 1 / Real.sqrt (1 + 1e-8) := by
  have h1 : (1:ℝ) ≤ Real.sqrt (1 + 1e-8) := by
    rw [show (1:ℝ) = Real.sqrt 1 by rw [Real.sqrt_one]]
    exact Real.sqrt_le_sqrt (by norm_num)
  have h2 : Real.sqrt (1 + 1e-8) ≤ 1 + 1e-8/2 := by
    have h := Real.sqrt_one_add_le (x := (1e-8:ℝ)) (by norm_num)
    linarith
  rw [le_div_iff₀ (lt_of_lt_of_le one_pos h1)]
  nlinarith

end DLL

namespace DLL

/-- C3: after init_layer(K, W, H), and before any forward pass, all seven
per-channel state vectors (gamma, beta, mean, var, last_mean, last_var,
inv_var) have length exactly K, gamma is all 1.0, beta is all 0.0, and
mean and var are all zero.  (Proved for all K, W, H, which covers the
positive ones the claim quantifies over.) -/
theorem init_layer_vectors (l : Layer) (K W H : ℕ) :
    (init_layer l K W H).gamma.length = K ∧
    (init_layer l K W H).beta.length = K ∧
    (init_layer l K W H).mean.length = K ∧
    (init_layer l K W H).var.length = K ∧
    (init_layer l K W H).last_mean.length = K ∧
    (init_layer l K W H).last_var.length = K ∧
    (init_layer l K W H).inv_var.length = K ∧
    (∀ x ∈ (init_layer l K W H).gamma, x = 1.0) ∧
    (∀ x ∈ (init_layer l K W H).beta, x = 0.0) ∧
    (∀ x ∈ (init_layer l K W H).mean, x = 0) ∧
    (∀ x ∈ (init_layer l K W H).var, x = 0) := by
  refine ⟨?_, ?_, ?_, ?_, ?_, ?_, ?_, ?_, ?_, ?_, ?_⟩ <;> simp [init_layer, dyn_vector]

/-- C10: the training forward pass leaves the learnable parameters gamma
and beta, the momentum scalar, and the dimensions Kernels, W, H unchanged;
the layer fields it replaces are exactly mean, var, last_mean, last_var,
inv_var and input_pre. -/
theorem train_forward_frame (l : Layer) (output input : Tensor4) :
    (train_batch_activate_hidden l output input).1.gamma = l.gamma ∧
    (train_batch_activate_hidden l output input).1.beta = l.beta ∧
    (train_batch_activate_hidden l output input).1.momentum = l.momentum ∧
    (train_batch_activate_hidden l output input).1.Kernels = l.Kernels ∧
    (train_batch_activate_hidden l output input).1.W = l.W ∧
    (train_batch_activate_hidden l output input).1.H = l.H :=
  ⟨rfl, rfl, rfl, rfl, rfl, rfl⟩

/-- C9: the inference forward pass leaves every layer field unchanged (the
returned layer is the argument layer), and therefore running the inference
pass a second time on the same state, the same input and the buffer just
written yields the identical output buffer. -/
theorem test_forward_pure_and_deterministic (l : Layer) (output input : Tensor4) :
    (test_batch_activate_hidden l output input).1 = l ∧
    (test_batch_activate_hidden l (test_batch_activate_hidden l output input).2 input).2
      = (test_batch_activate_hidden l output input).2 := by
  refine ⟨rfl, ?_⟩
  refine Tensor4.ext rfl rfl rfl rfl ?_
  funext b k i j
  by_cases h : b < input.dimB ∧ k < l.Kernels
  · simp [test_batch_activate_hidden, h]
  · simp [test_batch_activate_hidden, h]

/-- Shape of the buffer produced by the inherit step: always the shape of
the inherited-from input. -/
theorem inherit_if_null_shape (cur : Option Tensor4) (inp : Tensor4) :
    (inherit_if_null cur inp).dimB = inp.dimB ∧
    (inherit_if_null cur inp).dimK = inp.dimK ∧
    (inherit_if_null cur inp).dimW = inp.dimW ∧
    (inherit_if_null cur inp).dimH = inp.dimH := by
  cases cur with
  | none => exact ⟨rfl, rfl, rfl, rfl⟩
  | some t =>
    by_cases h : t.dimB = inp.dimB ∧ t.dimK = inp.dimK ∧ t.dimW = inp.dimW ∧ t.dimH = inp.dimH
    · simp [inherit_if_null, h]
    · simp [inherit_if_null, h]

/-- C2: after every training forward pass on an input whose channel and
spatial dimensions match the layer, the cached input_pre buffer is present
and has shape [B, K, W, H] with B the batch size of that forward call;
this holds for every prior state of the cache (absent, matching, or
mismatched from a forward call with another batch size), so it holds along
every sequence of training forward calls. -/
theorem train_input_pre_shape (l : Layer) (output input : Tensor4)
    (hK : input.dimK = l.Kernels) (hW : input.dimW = l.W) (hH : input.dimH = l.H) :
    ((train_batch_activate_hidden l output input).1.input_pre).map
        (fun t => (t.dimB, t.dimK, t.dimW, t.dimH))
      = some (input.dimB, l.Kernels, l.W, l.H) := by
  have h := inherit_if_null_shape l.input_pre input
  simp only [train_batch_activate_hidden, Option.map_some']
  show some ((train_input_pre l input).dimB, (train_input_pre l input).dimK,
    (train_input_pre l input).dimW, (train_input_pre l input).dimH) = _
  simp only [train_input_pre, h.1, h.2.1, h.2.2.1, h.2.2.2, hK, hW, hH]

/-- Witness for the C2 theorem at the concrete scenario layer and input. -/
theorem train_input_pre_shape_witness :
    (Tin.dimK = L0.Kernels ∧ Tin.dimW = L0.W ∧ Tin.dimH = L0.H) ∧
    ((train_batch_activate_hidden L0 Tz Tin).1.input_pre).map
        (fun t => (t.dimB, t.dimK, t.dimW, t.dimH))
      = some (Tin.dimB, L0.Kernels, L0.W, L0.H) :=
  ⟨⟨rfl, rfl, rfl⟩, train_input_pre_shape L0 Tz Tin rfl rfl rfl⟩

/-- C5: for an input of matching shape [B, K, W, H], the training forward
pass computes per channel k: last_mean[k] as the mean of the input over
batch and spatial axes; last_var[k] as the biased (population) variance
with S = B*W*H; inv_var[k] = 1/sqrt(last_var[k] + 1e-8); caches
input_pre[b,k] = (input[b,k] - last_mean[k]) * inv_var[k]; and writes
output[b,k] = gamma[k] * input_pre[b,k] + beta[k]. -/
theorem train_forward_formulas (l : Layer) (output input : Tensor4)
    (hK : input.dimK = l.Kernels) (hW : input.dimW = l.W) (hH : input.dimH = l.H)
    (b k i j : ℕ) (hb : b < input.dimB) (hk : k < l.Kernels) :
    (train_batch_activate_hidden l output input).1.last_mean.getD k 0 =
      (∑ b' ∈ Finset.range input.dimB, ∑ i' ∈ Finset.range l.W, ∑ j' ∈ Finset.range l.H,
        input.data b' k i' j') / ((input.dimB * l.W * l.H : ℕ) : ℝ) ∧
    (train_batch_activate_hidden l output input).1.last_var.getD k 0 =
      (∑ b' ∈ Finset.range input.dimB, ∑ i' ∈ Finset.range l.W, ∑ j' ∈ Finset.range l.H,
        (input.data b' k i' j' -
          (train_batch_activate_hidden l output input).1.last_mean.getD k 0) ^ 2)
        / ((input.dimB * l.W * l.H : ℕ) : ℝ) ∧
    (train_batch_activate_hidden l output input).1.inv_var.getD k 0 =
      1 / Real.sqrt ((train_batch_activate_hidden l output input).1.last_var.getD k 0 + 1e-8) ∧
    (cachedPre (train_batch_activate_hidden l output input).1).data b k i j =
      (input.data b k i j -
        (train_batch_activate_hidden l output input).1.last_mean.getD k 0) *
        (train_batch_activate_hidden l output input).1.inv_var.getD k 0 ∧
    (train_batch_activate_hidden l output input).2.data b k i j =
      l.gamma.getD k 0 * (cachedPre (train_batch_activate_hidden l output input).1).data b k i j
        + l.beta.getD k 0 := by
  have hk' : k < input.dimK := by omega
  have h1 : (train_batch_activate_hidden l output input).1.last_mean
      = train_last_mean input := rfl
  have h2 : (train_batch_activate_hidden l output input).1.last_var
      = train_last_var l input := rfl
  have h3 : (train_batch_activate_hidden l output input).1.inv_var
      = train_inv_var l input := rfl
  have h4 : cachedPre (train_batch_activate_hidden l output input).1
      = train_input_pre l input := rfl
  have h5 : (train_batch_activate_hidden l output input).2
      = train_output l output input := rfl
  rw [h1, h2, h3, h4, h5]
  have hlen : k < (train_last_var l input).length := by
    simpa [train_last_var] using hk
  refine ⟨?_, ?_, ?_, ?_, ?_⟩
  · rw [train_last_mean, getD_range_map _ _ _ hk']
    simp only [bias_batch_mean_4d]
    rw [hW, hH]
  · rw [train_last_var, getD_range_map _ _ _ hk]
    simp only [pow_two]
    rw [hW, hH]
  · rw [train_inv_var, getD_map_lt _ _ _ hlen]
    simp only [e]
  · simp [train_input_pre, hb, hk]
  · simp [train_output, hb, hk]

/-- Witness for the C5 theorem at the concrete scenario, sample b = 0,
channel k = 0. -/
theorem train_forward_formulas_witness :
    (Tin.dimK = L0.Kernels ∧ Tin.dimW = L0.W ∧ Tin.dimH = L0.H ∧
      0 < Tin.dimB ∧ 0 < L0.Kernels) ∧
    ((train_batch_activate_hidden L0 Tz Tin).1.last_mean.getD 0 0 =
      (∑ b' ∈ Finset.range Tin.dimB, ∑ i' ∈ Finset.range L0.W, ∑ j' ∈ Finset.range L0.H,
        Tin.data b' 0 i' j') / ((Tin.dimB * L0.W * L0.H : ℕ) : ℝ) ∧
    (train_batch_activate_hidden L0 Tz Tin).1.last_var.getD 0 0 =
      (∑ b' ∈ Finset.range Tin.dimB, ∑ i' ∈ Finset.range L0.W, ∑ j' ∈ Finset.range L0.H,
        (Tin.data b' 0 i' j' -
          (train_batch_activate_hidden L0 Tz Tin).1.last_mean.getD 0 0) ^ 2)
        / ((Tin.dimB * L0.W * L0.H : ℕ) : ℝ) ∧
    (train_batch_activate_hidden L0 Tz Tin).1.inv_var.getD 0 0 =
      1 / Real.sqrt ((train_batch_activate_hidden L0 Tz Tin).1.last_var.getD 0 0 + 1e-8) ∧
    (cachedPre (train_batch_activate_hidden L0 Tz Tin).1).data 0 0 0 0 =
      (Tin.data 0 0 0 0 -
        (train_batch_activate_hidden L0 Tz Tin).1.last_mean.getD 0 0) *
        (train_batch_activate_hidden L0 Tz Tin).1.inv_var.getD 0 0 ∧
    (train_batch_activate_hidden L0 Tz Tin).2.data 0 0 0 0 =
      L0.gamma.getD 0 0 * (cachedPre (train_batch_activate_hidden L0 Tz Tin).1).data 0 0 0 0
        + L0.beta.getD 0 0) :=
  ⟨⟨rfl, rfl, rfl, Nat.succ_pos 1, Nat.succ_pos 0⟩,
    train_forward_formulas L0 Tz Tin rfl rfl rfl 0 0 0 0 (Nat.succ_pos 1) (Nat.succ_pos 0)⟩

/-- C7: the inference forward pass returns, for every in-range sample and
channel, gamma[k] * ((input[b,k] - mean[k]) * (1/sqrt(var[k] + 1e-8)))
+ beta[k], computed from the running statistics mean and var (the factor
1/sqrt(var[k] + 1e-8) is recomputed from var, not read from the inv_var
cache, which does not occur in the formula). -/
theorem test_forward_formula (l : Layer) (output input : Tensor4) (b k i j : ℕ)
    (hb : b < input.dimB) (hk : k < l.Kernels) (hvar : l.var.length = l.Kernels) :
    (test_batch_activate_hidden l output input).2.data b k i j =
      l.gamma.getD k 0 * ((input.data b k i j - l.mean.getD k 0) *
        (1 / Real.sqrt (l.var.getD k 0 + 1e-8))) + l.beta.getD k 0 := by
  have hvk : k < l.var.length := by omega
  have hiv : (test_inv_var l).getD k 0 = 1 / Real.sqrt (l.var.getD k 0 + 1e-8) := by
    rw [test_inv_var, getD_map_lt _ _ _ hvk]
    simp only [e]
  rw [show (test_batch_activate_hidden l output input).2.data b k i j
      = if b < input.dimB ∧ k < l.Kernels
        then l.gamma.getD k 0 *
              ((input.data b k i j - l.mean.getD k 0) * (test_inv_var l).getD k 0)
             + l.beta.getD k 0
        else output.data b k i j from rfl]
  rw [if_pos ⟨hb, hk⟩, hiv]

/-- Witness for the C7 theorem at the concrete scenario layer and input. -/
theorem test_forward_formula_witness :
    (0 < Tin.dimB ∧ 0 < L0.Kernels ∧ L0.var.length = L0.Kernels) ∧
    (test_batch_activate_hidden L0 Tz Tin).2.data 0 0 0 0 =
      L0.gamma.getD 0 0 * ((Tin.data 0 0 0 0 - L0.mean.getD 0 0) *
        (1 / Real.sqrt (L0.var.getD 0 0 + 1e-8))) + L0.beta.getD 0 0 :=
  ⟨⟨Nat.succ_pos 1, Nat.succ_pos 0, rfl⟩,
    test_forward_formula L0 Tz Tin 0 0 0 0 (Nat.succ_pos 1) (Nat.succ_pos 0) rfl⟩

/-- C6: a backward call made after a matching training forward pass (same
layer state, context batch of the same batch size and matching error-buffer
dimensions) produces, for every in-range b and k, the input gradient
(inv_var[k]/S) * (S * dxhat[b,k] - dxhat_sum[k]
  - input_pre[b,k] * dxhat_dot_xhat[k]) with dxhat[b,k] =
errors[b,k] * gamma[k], S = B*W*H, and input_pre, inv_var the values cached
by that forward pass. -/
theorem backward_formula (l : Layer) (out0 outb input : Tensor4) (ctx : Context)
    (hB : ctx.input.dimB = input.dimB)
    (heB : ctx.errors.dimB = input.dimB) (heW : ctx.errors.dimW = l.W)
    (heH : ctx.errors.dimH = l.H)
    (b k i j : ℕ) (hb : b < input.dimB) (hk : k < l.Kernels) :
    (backward_batch (train_batch_activate_hidden l out0 input).1 outb ctx).data b k i j =
      (train_batch_activate_hidden l out0 input).1.inv_var.getD k 0
          / ((input.dimB * l.W * l.H : ℕ) : ℝ) *
        (((input.dimB * l.W * l.H : ℕ) : ℝ) * (ctx.errors.data b k i j * l.gamma.getD k 0)
          - (∑ b' ∈ Finset.range input.dimB, ∑ i' ∈ Finset.range l.W,
              ∑ j' ∈ Finset.range l.H, ctx.errors.data b' k i' j' * l.gamma.getD k 0)
          - (cachedPre (train_batch_activate_hidden l out0 input).1).data b k i j *
            (∑ b' ∈ Finset.range input.dimB, ∑ i' ∈ Finset.range l.W,
              ∑ j' ∈ Finset.range l.H,
                ctx.errors.data b' k i' j' * l.gamma.getD k 0 *
                  (cachedPre (train_batch_activate_hidden l out0 input).1).data b' k i' j')) := by
  simp only [backward_batch, backward_dxhat, bias_batch_sum_4d, cachedPre,
    train_batch_activate_hidden, Option.getD_some]
  rw [hB, heB, heW, heH]
  rw [if_pos ⟨hb, hk⟩, if_pos ⟨hb, hk⟩]
  have hsum1 : (∑ b' ∈ Finset.range input.dimB, ∑ i' ∈ Finset.range l.W,
      ∑ j' ∈ Finset.range l.H,
        (if b' < input.dimB ∧ k < l.Kernels
         then ctx.errors.data b' k i' j' * l.gamma.getD k 0 else 0))
      = ∑ b' ∈ Finset.range input.dimB, ∑ i' ∈ Finset.range l.W,
          ∑ j' ∈ Finset.range l.H, ctx.errors.data b' k i' j' * l.gamma.getD k 0 := by
    refine Finset.sum_congr rfl fun b' hb' => ?_
    rw [Finset.mem_range] at hb'
    simp [hb', hk]
  have hsum2 : (∑ b' ∈ Finset.range input.dimB, ∑ i' ∈ Finset.range l.W,
      ∑ j' ∈ Finset.range l.H,
        (if b' < input.dimB ∧ k < l.Kernels
         then ctx.errors.data b' k i' j' * l.gamma.getD k 0 else 0) *
          (train_input_pre l input).data b' k i' j')
      = ∑ b' ∈ Finset.range input.dimB, ∑ i' ∈ Finset.range l.W,
          ∑ j' ∈ Finset.range l.H,
            ctx.errors.data b' k i' j' * l.gamma.getD k 0 *
              (train_input_pre l input).data b' k i' j' := by
    refine Finset.sum_congr rfl fun b' hb' => ?_
    rw [Finset.mem_range] at hb'
    simp [hb', hk]
  rw [hsum1, hsum2]
  ring

/-- Witness for the C6 theorem: the concrete scenario's forward pass
followed by a backward call with errors [[5], [7]]. -/
theorem backward_formula_witness :
    (CtxA.input.dimB = Tin.dimB ∧ CtxA.errors.dimB = Tin.dimB ∧
      CtxA.errors.dimW = L0.W ∧ CtxA.errors.dimH = L0.H ∧
      0 < Tin.dimB ∧ 0 < L0.Kernels) ∧
    (backward_batch (train_batch_activate_hidden L0 Tz Tin).1 Tz CtxA).data 0 0 0 0 =
      (train_batch_activate_hidden L0 Tz Tin).1.inv_var.getD 0 0
          / ((Tin.dimB * L0.W * L0.H : ℕ) : ℝ) *
        (((Tin.dimB * L0.W * L0.H : ℕ) : ℝ) * (CtxA.errors.data 0 0 0 0 * L0.gamma.getD 0 0)
          - (∑ b' ∈ Finset.range Tin.dimB, ∑ i' ∈ Finset.range L0.W,
              ∑ j' ∈ Finset.range L0.H, CtxA.errors.data b' 0 i' j' * L0.gamma.getD 0 0)
          - (cachedPre (train_batch_activate_hidden L0 Tz Tin).1).data 0 0 0 0 *
            (∑ b' ∈ Finset.range Tin.dimB, ∑ i' ∈ Finset.range L0.W,
              ∑ j' ∈ Finset.range L0.H,
                CtxA.errors.data b' 0 i' j' * L0.gamma.getD 0 0 *
                  (cachedPre (train_batch_activate_hidden L0 Tz Tin).1).data b' 0 i' j')) :=
  ⟨⟨rfl, rfl, rfl, rfl, Nat.succ_pos 1, Nat.succ_pos 0⟩,
    backward_formula L0 Tz Tz Tin CtxA rfl rfl rfl rfl 0 0 0 0
      (Nat.succ_pos 1) (Nat.succ_pos 0)⟩

/-- C8: compute_gradients writes, per channel k,
w_grad[k] = sum over batch and spatial axes of input_pre[b,k] * errors[b,k]
and b_grad[k] = the same sum of errors[b,k], into the context only: the
layer (in particular gamma and beta) is returned unchanged. -/
theorem compute_gradients_formulas (l : Layer) (ctx : Context) (pre : Tensor4)
    (hpre : l.input_pre = some pre)
    (heB : ctx.errors.dimB = pre.dimB) (heW : ctx.errors.dimW = pre.dimW)
    (heH : ctx.errors.dimH = pre.dimH) (heK : ctx.errors.dimK = pre.dimK)
    (k : ℕ) (hk : k < pre.dimK) :
    ((compute_gradients l ctx).2.w_grad).getD k 0 =
      (∑ b ∈ Finset.range pre.dimB, ∑ i ∈ Finset.range pre.dimW,
        ∑ j ∈ Finset.range pre.dimH, pre.data b k i j * ctx.errors.data b k i j) ∧
    ((compute_gradients l ctx).2.b_grad).getD k 0 =
      (∑ b ∈ Finset.range pre.dimB, ∑ i ∈ Finset.range pre.dimW,
        ∑ j ∈ Finset.range pre.dimH, ctx.errors.data b k i j) ∧
    (compute_gradients l ctx).1 = l := by
  have hcp : cachedPre l = pre := by rw [cachedPre, hpre, Option.getD_some]
  refine ⟨?_, ?_, rfl⟩
  · simp only [compute_gradients]
    rw [hcp, getD_range_map _ _ _ hk]
    simp only [bias_batch_sum_4d]
  · simp only [compute_gradients]
    rw [getD_range_map _ _ _ (show k < ctx.errors.dimK by omega)]
    simp only [bias_batch_sum_4d]
    rw [heB, heW, heH]

/-- Witness for the C8 theorem: the concrete scenario's forward pass
followed by a gradient-computation call with errors [[5], [7]]. -/
theorem compute_gradients_formulas_witness :
    (L1.input_pre = some (train_input_pre L0 Tin) ∧
      CtxA.errors.dimB = (train_input_pre L0 Tin).dimB ∧
      CtxA.errors.dimW = (train_input_pre L0 Tin).dimW ∧
      CtxA.errors.dimH = (train_input_pre L0 Tin).dimH ∧
      CtxA.errors.dimK = (train_input_pre L0 Tin).dimK ∧
      0 < (train_input_pre L0 Tin).dimK) ∧
    (((compute_gradients L1 CtxA).2.w_grad).getD 0 0 =
      (∑ b ∈ Finset.range (train_input_pre L0 Tin).dimB,
        ∑ i ∈ Finset.range (train_input_pre L0 Tin).dimW,
        ∑ j ∈ Finset.range (train_input_pre L0 Tin).dimH,
          (train_input_pre L0 Tin).data b 0 i j * CtxA.errors.data b 0 i j) ∧
    ((compute_gradients L1 CtxA).2.b_grad).getD 0 0 =
      (∑ b ∈ Finset.range (train_input_pre L0 Tin).dimB,
        ∑ i ∈ Finset.range (train_input_pre L0 Tin).dimW,
        ∑ j ∈ Finset.range (train_input_pre L0 Tin).dimH, CtxA.errors.data b 0 i j) ∧
    (compute_gradients L1 CtxA).1 = L1) :=
  ⟨⟨rfl, rfl, rfl, rfl, rfl, Nat.succ_pos 0⟩,
    compute_gradients_formulas L1 CtxA (train_input_pre L0 Tin) rfl rfl rfl rfl rfl 0
      (Nat.succ_pos 0)⟩

theorem train_input_pre_eval (l : Layer) (input : Tensor4) (b k i j : ℕ)
    (hb : b < input.dimB) (hk : k < l.Kernels) :
    (train_input_pre l input).data b k i j =
      (input.data b k i j - (train_last_mean input).getD k 0) *
        (train_inv_var l input).getD k 0 := by
  simp [train_input_pre, hb, hk]

theorem train_output_eval (l : Layer) (output input : Tensor4) (b k i j : ℕ)
    (hb : b < input.dimB) (hk : k < l.Kernels) :
    (train_output l output input).data b k i j =
      l.gamma.getD k 0 * (train_input_pre l input).data b k i j + l.beta.getD k 0 := by
  simp [train_output, hb, hk]

theorem concrete_last_mean : (train_last_mean Tin).getD 0 0 = 3 := by
  rw [train_last_mean, getD_range_map _ Tin.dimK 0 (by norm_num [Tin])]
  norm_num [bias_batch_mean_4d, Tin, Finset.sum_range_succ]

theorem concrete_last_var : (train_last_var L0 Tin).getD 0 0 = 1 := by
  rw [train_last_var, getD_range_map _ L0.Kernels 0 (by norm_num [L0, init_layer, dyn_vector]),
      concrete_last_mean]
  norm_num [Tin, L0, init_layer, dyn_vector, Layer.new, Finset.sum_range_succ]

theorem concrete_inv_var : (train_inv_var L0 Tin).getD 0 0 = 1 / Real.sqrt (1 + 1e-8) := by
  have hlen : 0 < (train_last_var L0 Tin).length := by
    simp [train_last_var, L0, init_layer, dyn_vector]
  rw [train_inv_var, getD_map_lt _ _ _ hlen, concrete_last_var]
  simp only [e]

/-- C4: the concrete scenario K = W = H = 1, B = 2, input [[2.0], [4.0]],
gamma = 1, beta = 0, momentum = 0.9, initial mean = var = 0: one training
forward pass yields last_mean = 3, last_var = 1,
inv_var = 1/sqrt(1 + 1e-8), input_pre within 1e-8 of [[-1], [1]], output
within 1e-8 of [[-1], [1]], and running var = 0.9*0 + 0.1*2*1 = 0.2
(here S = 2, so the source's S/(S-1) is exactly 2). -/
theorem concrete_scenario :
    (train_batch_activate_hidden L0 Tz Tin).1.last_mean.getD 0 0 = 3 ∧
    (train_batch_activate_hidden L0 Tz Tin).1.last_var.getD 0 0 = 1 ∧
    (train_batch_activate_hidden L0 Tz Tin).1.inv_var.getD 0 0 = 1 / Real.sqrt (1 + 1e-8) ∧
    |(cachedPre (train_batch_activate_hidden L0 Tz Tin).1).data 0 0 0 0 - (-1)| ≤ 1e-8 ∧
    |(cachedPre (train_batch_activate_hidden L0 Tz Tin).1).data 1 0 0 0 - 1| ≤ 1e-8 ∧
    |(train_batch_activate_hidden L0 Tz Tin).2.data 0 0 0 0 - (-1)| ≤ 1e-8 ∧
    |(train_batch_activate_hidden L0 Tz Tin).2.data 1 0 0 0 - 1| ≤ 1e-8 ∧
    (train_batch_activate_hidden L0 Tz Tin).1.var.getD 0 0 = 0.2 := by
  have h1 : (train_batch_activate_hidden L0 Tz Tin).1.last_mean = train_last_mean Tin := rfl
  have h2 : (train_batch_activate_hidden L0 Tz Tin).1.last_var = train_last_var L0 Tin := rfl
  have h3 : (train_batch_activate_hidden L0 Tz Tin).1.inv_var = train_inv_var L0 Tin := rfl
  have h4 : cachedPre (train_batch_activate_hidden L0 Tz Tin).1 = train_input_pre L0 Tin := rfl
  have h5 : (train_batch_activate_hidden L0 Tz Tin).2 = train_output L0 Tz Tin := rfl
  have h6 : (train_batch_activate_hidden L0 Tz Tin).1.var = train_var L0 Tin := rfl
  have hup := inv_sqrt_one_add_eps_le_one
  have hlo := one_sub_eps_le_inv_sqrt_one_add_eps
  have hg : L0.gamma.getD 0 0 = 1 := by norm_num [L0, init_layer, dyn_vector]
  have hbeta : L0.beta.getD 0 0 = 0 := by norm_num [L0, init_layer, dyn_vector]
  have hpre0 : (train_input_pre L0 Tin).data 0 0 0 0 = (2 - 3) * (1 / Real.sqrt (1 + 1e-8)) := by
    rw [train_input_pre_eval L0 Tin 0 0 0 0 (Nat.succ_pos 1) (Nat.succ_pos 0),
        concrete_last_mean, concrete_inv_var]
    norm_num [Tin]
  have hpre1 : (train_input_pre L0 Tin).data 1 0 0 0 = (4 - 3) * (1 / Real.sqrt (1 + 1e-8)) := by
    rw [train_input_pre_eval L0 Tin 1 0 0 0 (Nat.one_lt_two) (Nat.succ_pos 0),
        concrete_last_mean, concrete_inv_var]
    norm_num [Tin]
  refine ⟨by rw [h1]; exact concrete_last_mean,
          by rw [h2]; exact concrete_last_var,
          by rw [h3]; exact concrete_inv_var, ?_, ?_, ?_, ?_, ?_⟩
  · rw [h4, hpre0, show ((2:ℝ) - 3) * (1 / Real.sqrt (1 + 1e-8)) - (-1)
        = 1 - 1 / Real.sqrt (1 + 1e-8) by ring, abs_le]
    constructor <;> linarith
  · rw [h4, hpre1, show ((4:ℝ) - 3) * (1 / Real.sqrt (1 + 1e-8)) - 1
        = 1 / Real.sqrt (1 + 1e-8) - 1 by ring, abs_le]
    constructor <;> linarith
  · rw [h5, train_output_eval L0 Tz Tin 0 0 0 0 (Nat.succ_pos 1) (Nat.succ_pos 0),
        hg, hbeta, hpre0, show (1:ℝ) * (((2:ℝ) - 3) * (1 / Real.sqrt (1 + 1e-8))) + 0 - (-1)
        = 1 - 1 / Real.sqrt (1 + 1e-8) by ring, abs_le]
    constructor <;> linarith
  · rw [h5, train_output_eval L0 Tz Tin 1 0 0 0 (Nat.one_lt_two) (Nat.succ_pos 0),
        hg, hbeta, hpre1, show (1:ℝ) * (((4:ℝ) - 3) * (1 / Real.sqrt (1 + 1e-8))) + 0 - 1
        = 1 / Real.sqrt (1 + 1e-8) - 1 by ring, abs_le]
    constructor <;> linarith
  · rw [h6, train_var, getD_range_map _ L0.Kernels 0 (by norm_num [L0, init_layer, dyn_vector]),
        concrete_last_var]
    norm_num [Tin, L0, init_layer, dyn_vector, Layer.new]

theorem counterexample_last_mean : (train_last_mean Tin3).getD 0 0 = 1 := by
  rw [train_last_mean, getD_range_map _ Tin3.dimK 0 (by norm_num [Tin3])]
  norm_num [bias_batch_mean_4d, Tin3, Finset.sum_range_succ]

theorem counterexample_last_var : (train_last_var L0 Tin3).getD 0 0 = 2 := by
  rw [train_last_var, getD_range_map _ L0.Kernels 0 (by norm_num [L0, init_layer, dyn_vector]),
      counterexample_last_mean]
  norm_num [Tin3, L0, init_layer, dyn_vector, Layer.new, Finset.sum_range_succ]

/-- C1 fails on the code for S = 3: with K = W = H = 1, B = 3, input
(0, 0, 3) in the single channel, momentum = 0.9 and initial var = 0, the
mini-batch variance is 2, and the source's size_t division makes the
Bessel factor S / (S - 1) = 3 / 2 truncate to 1, so the updated running
variance is 0.9*0 + 0.1*1*2 = 0.2; the claimed exact real-valued ratio
3/2 would give 0.9*0 + 0.1*(3/2)*2 = 0.3, and 0.2 is not 0.3. -/
theorem running_var_integer_division :
    (train_batch_activate_hidden L0 Tz3 Tin3).1.last_var.getD 0 0 = 2 ∧
    (train_batch_activate_hidden L0 Tz3 Tin3).1.var.getD 0 0 = 0.2 ∧
    L0.momentum * L0.var.getD 0 0 + (1 - L0.momentum) *
        (((Tin3.dimB * L0.W * L0.H : ℕ) : ℝ) / (((Tin3.dimB * L0.W * L0.H : ℕ) : ℝ) - 1) *
          (train_batch_activate_hidden L0 Tz3 Tin3).1.last_var.getD 0 0) = 0.3 ∧
    (0.2 : ℝ) ≠ 0.3 := by
  have h2 : (train_batch_activate_hidden L0 Tz3 Tin3).1.last_var = train_last_var L0 Tin3 := rfl
  have h6 : (train_batch_activate_hidden L0 Tz3 Tin3).1.var = train_var L0 Tin3 := rfl
  refine ⟨by rw [h2]; exact counterexample_last_var, ?_, ?_, by norm_num⟩
  · rw [h6, train_var, getD_range_map _ L0.Kernels 0 (by norm_num [L0, init_layer, dyn_vector]),
        counterexample_last_var]
    norm_num [Tin3, L0, init_layer, dyn_vector, Layer.new]
  · rw [h2, counterexample_last_var]
    norm_num [Tin3, L0, init_layer, dyn_vector, Layer.new]

end DLL
